import Mathlib

/-!
Shallow embedding of the PRALAYA-NET cascading-risk subsystem.

Sources embedded:
- `src/backend/ai/graph_risk.py` (class `CascadingRiskAnalyzer`), with the seed
  topology from `src/backend/config.py` (`CRITICAL_INFRA`, risk thresholds);
- `src/backend/services/digital_twin_cascade_forecast.py`
  (class `DigitalTwinCascadeForecastEngine`).

Modelling conventions:
- Python floats are modelled as exact rationals (ℚ); every numeric literal of the
  source appears as the corresponding rational.
- Python dicts are modelled as insertion-ordered association lists: assignment to
  an existing key keeps its position, a new key is appended (Python 3.7+ semantics).
- Python geometric distances `sqrt(dlat**2 + dlon**2)` are tracked as the squared
  quantity `dlat^2 + dlon^2`; `sqrt` is strictly monotone on nonnegatives, so every
  comparison the source performs on a distance is performed here on its square
  (thresholds are squared accordingly).
- A raised-and-caught Python exception is modelled by `Option`/match: `none` where
  the source raises, with the catching site selecting the source's fallback.
- `np.random.random()` draws are modelled by an explicit oracle `draws : ℕ → ℚ`
  consumed in call order; `uuid` strings and wall-clock timestamps, which no claim
  inspects, are modelled by a per-engine counter / omitted.
-/

set_option maxRecDepth 8000
set_option maxHeartbeats 2000000

/-- Association-list lookup, mirroring Python `dict` access / `in` tests
(first match wins; Python dict keys are unique, so this coincides). -/
def alook {V : Type} (k : String) : List (String × V) → Option V
  | [] => none
  | (k', v) :: rest => if k' = k then some v else alook k rest

/-- Association-list write, mirroring Python `d[k] = v`: an existing key keeps its
position, a new key is appended at the end. -/
def aset {V : Type} (k : String) (v : V) : List (String × V) → List (String × V)
  | [] => [(k, v)]
  | (k', v') :: rest => if k' = k then (k, v) :: rest else (k', v') :: aset k v rest

/-- In-place update of the value stored under `k` (used for mutation of a field of
a stored object). A missing key is a no-op here; the source would raise `KeyError`,
which never happens on the well-formed states this is applied to. -/
def amodify {V : Type} (k : String) (f : V → V) : List (String × V) → List (String × V)
  | [] => []
  | (k', v) :: rest => if k' = k then (k', f v) :: rest else (k', v) :: amodify k f rest

/-- Embeds `self.node_risks.get(n, 0.0)`. -/
def riskAt (m : List (String × ℚ)) (k : String) : ℚ := (alook k m).getD 0

namespace GraphRisk

/-- A node of `CascadingRiskAnalyzer.graph` with the attributes set in
`_build_infrastructure_graph` / `_create_virtual_affected_node`. The mutable
`risk` attribute is not carried here: it always mirrors `node_risks`, which the
analyzer state tracks. -/
structure GNode where
  id : String
  name : String
  ntype : String
  lat : ℚ
  lon : ℚ
  resilience : ℚ
deriving DecidableEq

/-- A directed dependency edge with the attributes set by `graph.add_edge`. -/
structure GEdge where
  src : String
  tgt : String
  weight : ℚ
  etype : String
  delayMinutes : ℚ
deriving DecidableEq

structure Graph where
  nodes : List GNode
  edges : List GEdge
deriving DecidableEq

/-- Embeds `CRITICAL_INFRA` from `config.py`; `_build_infrastructure_graph` gives every
node base resilience 0.5. -/
def criticalInfra : List GNode :=
  [⟨"power_grid_1", "Power Grid Station A", "power", 286139/10000, 772090/10000, 1/2⟩,
   ⟨"hospital_1", "City Hospital", "healthcare", 287041/10000, 771025/10000, 1/2⟩,
   ⟨"water_supply_1", "Water Treatment Plant", "water", 285355/10000, 773910/10000, 1/2⟩,
   ⟨"telecom_1", "Telecom Tower", "telecom", 285562/10000, 771000/10000, 1/2⟩]

/-- The dependency edges of `_build_infrastructure_graph`, in insertion order
(NetworkX keeps successor adjacency in insertion order). -/
def infraEdges : List GEdge :=
  [⟨"power_grid_1", "hospital_1", 95/100, "power_dependency", 15⟩,
   ⟨"power_grid_1", "water_supply_1", 85/100, "power_dependency", 30⟩,
   ⟨"power_grid_1", "telecom_1", 80/100, "power_dependency", 20⟩,
   ⟨"water_supply_1", "hospital_1", 70/100, "water_dependency", 60⟩,
   ⟨"water_supply_1", "telecom_1", 50/100, "water_dependency", 45⟩,
   ⟨"telecom_1", "hospital_1", 60/100, "communication_dependency", 120⟩,
   ⟨"hospital_1", "power_grid_1", 30/100, "load_reduction", 240⟩]

def initialGraph : Graph := ⟨criticalInfra, infraEdges⟩

/-- The mutable state of a `CascadingRiskAnalyzer`: its graph (which
`_create_virtual_affected_node` can extend) and the shared `self.node_risks`
dictionary. `risk_history` is never read by the embedded operations. -/
structure AState where
  graph : Graph
  nodeRisks : List (String × ℚ)
deriving DecidableEq

/-- The analyzer right after `__init__`: all risks 0. -/
def initialState : AState := ⟨initialGraph, criticalInfra.map (fun n => (n.id, 0))⟩

/-- Embeds `_find_nearest_node`. The source minimises `sqrt(lat_diff**2 + lon_diff**2)`
and accepts the minimum when it is `< 0.05`; we minimise the square and compare
with `0.05**2 = 1/400`, which is equivalent since squaring is strictly monotone
on nonnegatives. Strict `<` keeps the earliest node on ties, as in the source. -/
def findNearestNode (g : Graph) (lat lon : ℚ) : Option String :=
  let best := g.nodes.foldl
    (fun acc n =>
      let d2 := (n.lat - lat) ^ 2 + (n.lon - lon) ^ 2
      match acc with
      | none => some (d2, n.id)
      | some (m, nid) => if d2 < m then some (d2, n.id) else some (m, nid))
    none
  match best with
  | some (m, nid) => if m < 1/400 then some nid else none
  | none => none

/-- Embeds `graph.nodes[nid].get("type", "unknown")`. -/
def nodeType (g : Graph) (nid : String) : String :=
  ((g.nodes.find? (fun n => n.id == nid)).map (fun n => n.ntype)).getD "unknown"

/-- Embeds `graph.nodes[nid].get("resilience", 0.5)`. -/
def resilienceOf (g : Graph) (nid : String) : ℚ :=
  ((g.nodes.find? (fun n => n.id == nid)).map (fun n => n.resilience)).getD (1/2)

/-- The `impact_matrix` of `_calculate_initial_impact`; unmapped combinations
default to 0.75. -/
def impactMultiplier (disasterType ntype : String) : ℚ :=
  if disasterType = "flood" then
    if ntype = "power" then 85/100
    else if ntype = "water" then 70/100
    else if ntype = "healthcare" then 75/100
    else if ntype = "telecom" then 65/100
    else 75/100
  else if disasterType = "fire" then
    if ntype = "power" then 90/100
    else if ntype = "water" then 50/100
    else if ntype = "healthcare" then 80/100
    else if ntype = "telecom" then 85/100
    else 75/100
  else if disasterType = "earthquake" then
    if ntype = "power" then 95/100
    else if ntype = "water" then 85/100
    else if ntype = "healthcare" then 90/100
    else if ntype = "telecom" then 90/100
    else 75/100
  else if disasterType = "cyclone" then
    if ntype = "power" then 80/100
    else if ntype = "water" then 70/100
    else if ntype = "healthcare" then 75/100
    else if ntype = "telecom" then 85/100
    else 75/100
  else 75/100

/-- Embeds `_calculate_initial_impact`: `min(1.0, severity * base_multiplier)`. -/
def calcInitialImpact (g : Graph) (disasterType : String) (severity : ℚ) (nid : String) : ℚ :=
  min 1 (severity * impactMultiplier disasterType (nodeType g nid))

/-- Embeds `_get_risk_modifier`. -/
def riskModifier (disasterType : String) (g : Graph) (targetNode sourceNode : String) : ℚ :=
  let tt := nodeType g targetNode
  let st := nodeType g sourceNode
  if disasterType = "flood" then
    if st = "water" ∧ tt = "power" then 12/10 else 1
  else if disasterType = "fire" then
    if st = "power" ∧ (tt = "telecom" ∨ tt = "healthcare") then 115/100 else 1
  else if disasterType = "earthquake" then 11/10
  else 1

/-- Successor edges of a node, in edge-insertion order (matches NetworkX
`graph.successors` together with the edge-attribute lookup). -/
def successors (g : Graph) (nid : String) : List GEdge :=
  g.edges.filter (fun e => e.src == nid)

/-- Entry of the `affected_nodes` dictionary. -/
structure NState where
  risk : ℚ
  step : ℕ
  timeMinutes : ℚ
deriving DecidableEq

/-- Lines 113-122 of `analyze_cascading_risk`:
`base = current_risk * edge_weight`; `propagated = base * risk_modifier`;
`final = propagated * (1 - target_resilience * 0.3)`. -/
def finalRisk (g : Graph) (disasterType : String) (srcId : String) (srcRisk : ℚ)
    (ed : GEdge) : ℚ :=
  let basePropagated := srcRisk * ed.weight
  let propagatedRisk := basePropagated * riskModifier disasterType g ed.tgt srcId
  propagatedRisk * (1 - resilienceOf g ed.tgt * (3/10))

/-- Working state threaded through one propagation step: the shared
`node_risks` map, the step's `new_affected` dict, and `propagation_path`. -/
abbrev StepState := List (String × ℚ) × List (String × NState) × List String

/-- The inner body of the propagation loop for one `(source, neighbor)` edge
(lines 104-136): skip a neighbor recorded in `affected_nodes` at an earlier
step; otherwise compute the propagated risk and update `node_risks`,
`new_affected` and `propagation_path` only if it strictly exceeds the target's
current working value (max-aggregation). -/
def processEdge (g : Graph) (disasterType : String) (step : ℕ)
    (affected : List (String × NState)) (srcId : String) (srcRisk srcTime : ℚ)
    (st : StepState) (ed : GEdge) : StepState :=
  let skip : Bool :=
    match alook ed.tgt affected with
    | some prev => decide (prev.step < step)
    | none => false
  if skip then st
  else
    let fr := finalRisk g disasterType srcId srcRisk ed
    let cur := riskAt st.1 ed.tgt
    let newRisk := max cur fr
    if cur < newRisk then
      (aset ed.tgt newRisk st.1,
       aset ed.tgt ⟨newRisk, step, srcTime + ed.delayMinutes⟩ st.2.1,
       st.2.2 ++ [ed.tgt])
    else st

/-- Propagation from one source entry of the `affected_nodes` snapshot: visit
all its successor edges in order (lines 104-136 for one fixed source). -/
def runSource (g : Graph) (disasterType : String) (step : ℕ)
    (affected : List (String × NState)) (st : StepState)
    (src : String × NState) : StepState :=
  (successors g src.1).foldl
    (processEdge g disasterType step affected src.1 src.2.risk src.2.timeMinutes) st

/-- One propagation step (one iteration of `for step in range(...)`): iterate the
snapshot `list(affected_nodes.items())` in order, and for each source all its
successor edges, threading `node_risks` / `new_affected` / `propagation_path`. -/
def runStep (g : Graph) (disasterType : String) (step : ℕ)
    (affected : List (String × NState)) (risks : List (String × ℚ))
    (path : List String) : StepState :=
  affected.foldl (runSource g disasterType step affected) (risks, [], path)

/-- Embeds `affected_nodes.update(new_affected)`. -/
def mergeAffected (aff newAff : List (String × NState)) : List (String × NState) :=
  newAff.foldl (fun a p => aset p.1 p.2 a) aff

/-- The propagation loop of `analyze_cascading_risk` (lines 96-141): run steps
`step, step+1, ...` while fewer than `rem` steps have run, breaking as soon as a
step produces no update (the break returns before merging the empty
`new_affected`). Returns (`affected_nodes`, `node_risks`, `propagation_path`). -/
def propLoop (g : Graph) (disasterType : String) :
    ℕ → ℕ → List (String × NState) → List (String × ℚ) → List String →
    List (String × NState) × List (String × ℚ) × List String
  | _, 0, aff, risks, path => (aff, risks, path)
  | step, rem+1, aff, risks, path =>
    let r := runStep g disasterType step aff risks path
    if r.2.1 = [] then (aff, r.1, r.2.2)
    else propLoop g disasterType (step+1) rem (mergeAffected aff r.2.1) r.1 r.2.2

/-- Embeds `_create_virtual_affected_node`: if `disaster_zone` is absent, add it (typed
with the disaster type, located at the event or the default coordinates, risk 0)
and connect it to every `CRITICAL_INFRA` node with weight 0.7 / delay 60. The
source sets no `resilience` attribute on the virtual node; reads go through
`.get("resilience", 0.5)`, so the field is 1/2 here. -/
def createVirtualAffectedNode (g : Graph) (risks : List (String × ℚ))
    (lat? lon? : Option ℚ) (disasterType : String) : Graph × List (String × ℚ) :=
  if g.nodes.any (fun n => n.id == "disaster_zone") then (g, risks)
  else
    let vn : GNode :=
      ⟨"disaster_zone", "Disaster Zone", disasterType,
       lat?.getD (286139/10000), lon?.getD (772090/10000), 1/2⟩
    let newEdges := criticalInfra.filterMap (fun i =>
      if i.id = "disaster_zone" then none
      else some (⟨"disaster_zone", i.id, 7/10, "proximity_impact", 60⟩ : GEdge))
    (⟨g.nodes ++ [vn], g.edges ++ newEdges⟩, aset "disaster_zone" 0 risks)

/-- The `initial_disaster` dict: `type`, `severity` and `location` are read with
`.get` and defaults, so every field is optional. -/
structure Disaster where
  dtype : Option String
  severity : Option ℚ
  lat : Option ℚ
  lon : Option ℚ
deriving DecidableEq

/-- The parts of the returned analysis dict the claims are about. The per-node
display rounding (`round(risk, 3)`) and the timestamp are omitted; `max_risk`
is taken over the unrounded working values. -/
structure AResult where
  propagationPath : List String
  affectedNodes : List (String × NState)
  maxRisk : ℚ
deriving DecidableEq

/-- Embeds `analyze_cascading_risk` (default `propagation_steps = 4` at call sites).
Returns the result and the analyzer state after the call; note that the working
risk map written by the run is `self.node_risks` itself. -/
def analyzeCascadingRisk (s : AState) (d : Disaster) (propagationSteps : ℕ) :
    AResult × AState :=
  let disasterType := d.dtype.getD "unknown"
  let severity := d.severity.getD (7/10)
  let gra :=
    match findNearestNode s.graph (d.lat.getD 0) (d.lon.getD 0) with
    | some n => (s.graph, s.nodeRisks, n)
    | none =>
      let gr := createVirtualAffectedNode s.graph s.nodeRisks d.lat d.lon disasterType
      (gr.1, gr.2, "disaster_zone")
  let g := gra.1
  let affectedNode := gra.2.2
  let initialRisk := calcInitialImpact g disasterType severity affectedNode
  let risks1 := aset affectedNode initialRisk gra.2.1
  let aff0 : List (String × NState) := [(affectedNode, ⟨initialRisk, 0, 0⟩)]
  let fin := propLoop g disasterType 1 propagationSteps aff0 risks1 [affectedNode]
  let maxRisk := (g.nodes.map (fun n => riskAt fin.2.1 n.id)).foldl max 0
  (⟨fin.2.2, fin.1, maxRisk⟩, ⟨g, fin.2.1⟩)

/-- Embeds `reset_risks`: set every graph node's stored risk back to 0. -/
def resetRisks (s : AState) : AState :=
  ⟨s.graph, s.graph.nodes.foldl (fun r n => aset n.id 0 r) s.nodeRisks⟩

/-- The Scenario A/B disaster: an earthquake of severity 0.9 at the exact
location of `power_grid_1`. -/
def earthquakeAtPowerGrid : Disaster :=
  ⟨some "earthquake", some (9/10), some (286139/10000), some (772090/10000)⟩

/-- A second, mild disaster of an unmapped type at the same location, used to
observe state left behind by an earlier run. -/
def mildStormAtPowerGrid : Disaster :=
  ⟨some "storm", some (1/10), some (286139/10000), some (772090/10000)⟩

/-- The analyzer state after running the Scenario A/B analysis on a fresh
analyzer. -/
def stateAfterFirstRun : AState :=
  (analyzeCascadingRisk initialState earthquakeAtPowerGrid 4).2

end GraphRisk

namespace DT

/-- Embeds `NodeType`. -/
inductive NType
  | power_grid
  | telecom_tower
  | water_system
  | transport_bridge
  | hospital
  | school
  | communication_center
deriving DecidableEq

/-- Embeds `FailureMode`. -/
inductive FMode
  | overload
  | weather_damage
  | structural_damage
  | equipment_failure
  | power_outage
  | connectivity_loss
deriving DecidableEq

/-- Embeds `FailureMode(failure_mode.lower())`: the enum constructor, `ValueError`
(modelled as `none`) on any other string. -/
def parseFailureMode (s : String) : Option FMode :=
  let t := s.toLower
  if t = "overload" then some FMode.overload
  else if t = "weather_damage" then some FMode.weather_damage
  else if t = "structural_damage" then some FMode.structural_damage
  else if t = "equipment_failure" then some FMode.equipment_failure
  else if t = "power_outage" then some FMode.power_outage
  else if t = "connectivity_loss" then some FMode.connectivity_loss
  else none

/-- Embeds `InfrastructureNode`. -/
structure DTNode where
  nodeId : String
  name : String
  ntype : NType
  lat : ℚ
  lon : ℚ
  capacity : ℚ
  currentLoad : ℚ
  healthScore : ℚ
  redundancyLevel : ℕ
  repairTimeHours : ℚ
  criticalityScore : ℚ
  dependencies : List String
  dependents : List String
deriving DecidableEq

instance : Inhabited DTNode := ⟨⟨"", "", NType.power_grid, 0, 0, 0, 0, 0, 0, 0, 0, [], []⟩⟩

/-- Embeds `DependencyEdge`. -/
structure DTEdge where
  sourceNode : String
  targetNode : String
  dependencyType : String
  failurePropagationWeight : ℚ
  recoveryDependency : ℚ
  distanceKm : ℚ
deriving DecidableEq

/-- One entry of `cascade_timeline`: the two event shapes appended by
`_simulate_cascade_propagation`. -/
inductive TEvent
  | initialFailure (timeMinutes : ℚ) (node : String) (failureMode : FMode) (impactScore : ℚ)
  | cascadeFailure (timeMinutes : ℚ) (node : String) (sourceNode : String)
      (failureProbability : ℚ) (impactScore : ℚ)
deriving DecidableEq

/-- Embeds `CascadePrediction`. The `uuid`-generated `prediction_id` and the wall-clock
`timestamp`, which no claim inspects, are omitted. `predicted_radius_km` is
tracked as the maximal squared degree distance (the source value is
`sqrt` of it times 111; the map is strictly monotone). -/
structure Pred where
  initialFailureNode : String
  failureMode : FMode
  cascadeProbability : ℚ
  predictedRadiusSq : ℚ
  affectedNodes : List String
  cascadeTimeline : List TEvent
  totalImpactScore : ℚ
  confidence : ℚ
deriving DecidableEq

/-- A `stabilization_actions` entry. -/
inductive SAction
  | loadReduction (targetNodes : List String) (reductionPercentage : ℚ)
  | backupActivation (targetNodes : List String) (backupSystems : ℕ)
  | dependencyStrengthening (targetEdges : List String) (strengtheningFactor : ℚ)
deriving DecidableEq

/-- Embeds `PreStabilizationStrategy`; `strategy_id` (a fresh uuid in the source) is
modelled by a number drawn from the engine's freshness counter. -/
structure Strategy where
  strategyId : ℕ
  targetNodes : List String
  stabilizationActions : List SAction
  expectedCascadeReduction : ℚ
  implementationCost : ℚ
  implementationTimeMinutes : ℚ
  priorityScore : ℚ
deriving DecidableEq

/-- Embeds `CriticalNodeAnalysis`. -/
structure CNA where
  nodeId : String
  centralityScore : ℚ
  cascadeContributionScore : ℚ
  vulnerabilityScore : ℚ
  stabilizationPriority : ℚ
  recommendedActions : List String
deriving DecidableEq

/-- The mutable state of a `DigitalTwinCascadeForecastEngine`. The
`dependency_graph` / `reverse_dependency_graph` adjacency dicts are maintained by
the source but never read by the embedded operations (which use the per-node
`dependents` lists, as the source does), so they are not carried. `nextUuid`
models the freshness of `uuid.uuid4()` strategy ids. -/
structure Engine where
  nodes : List (String × DTNode)
  edges : List (String × DTEdge)
  cascadePredictions : List Pred
  criticalNodeAnalyses : List (String × CNA)
  preStabilizationStrategies : List (ℕ × Strategy)
  nextUuid : ℕ
deriving DecidableEq

/-- The running state of `_simulate_cascade_propagation`'s while-loop.
`failed_nodes` is a Python `set` whose members are only ever added under a
not-member guard, so a duplicate-free list in insertion order models it and its
`len` exactly. -/
structure SimState where
  affectedNodes : List String
  failedNodes : List String
  timeline : List TEvent
  currentTime : ℚ
  totalImpact : ℚ
  queue : List (String × ℕ)
  drawIdx : ℕ
deriving DecidableEq

/-- The dict returned by `_simulate_cascade_propagation`. -/
structure SimResult where
  affectedNodes : List String
  cascadeProbability : ℚ
  timeline : List TEvent
  totalImpact : ℚ
deriving DecidableEq

instance : Inhabited SimResult := ⟨⟨[], 0, [], 0⟩⟩

/-- Lines 476-486: `failure_prob = edge.failure_propagation_weight`, scaled by
`(1 - health) * (1 - redundancy/5)` and then by the failure-mode factor. -/
def adjustedFailureProb (fm : FMode) (ed : DTEdge) (depNode : DTNode) : ℚ :=
  let p := ed.failurePropagationWeight * (1 - depNode.healthScore)
    * (1 - (depNode.redundancyLevel : ℚ) / 5)
  if fm = FMode.overload then p * (12/10)
  else if fm = FMode.power_outage ∧ depNode.ntype = NType.power_grid then p * (15/10)
  else p

/-- The body of `for dependent_id in self.nodes[current_node].dependents`
(lines 469-503). `none` models the `KeyError` a dangling dependent id would
raise. One `np.random.random()` draw is consumed exactly where the source
draws. -/
def processDependent (e : Engine) (fm : FMode) (draws : ℕ → ℚ) (curNode : String)
    (depth : ℕ) (st : SimState) (depId : String) : Option SimState :=
  if depId ∈ st.failedNodes then some st
  else
    match alook (curNode ++ "_" ++ depId) e.edges with
    | none => some st
    | some ed =>
      match alook depId e.nodes with
      | none => none
      | some depNode =>
        let failureProb := adjustedFailureProb fm ed depNode
        let draw := draws st.drawIdx
        let st1 : SimState := { st with drawIdx := st.drawIdx + 1 }
        if draw < failureProb then
          some { st1 with
            failedNodes := st1.failedNodes ++ [depId],
            affectedNodes := st1.affectedNodes ++ [depId],
            timeline := st1.timeline ++
              [TEvent.cascadeFailure st1.currentTime depId curNode failureProb
                depNode.criticalityScore],
            totalImpact := st1.totalImpact + depNode.criticalityScore,
            queue := st1.queue ++ [(depId, depth + 1)] }
        else some st1

/-- Processing of one popped queue entry (lines 462-503): skip when
`depth > 5` (before the time increment), otherwise advance time by 5 and visit
the node's dependents in order. -/
def simPopStep (e : Engine) (fm : FMode) (draws : ℕ → ℚ) (cur : String) (depth : ℕ)
    (st : SimState) : Option SimState :=
  if 5 < depth then some st
  else
    match alook cur e.nodes with
    | none => none
    | some curNode =>
      let st1 : SimState := { st with currentTime := st.currentTime + 5 }
      curNode.dependents.foldlM (processDependent e fm draws cur depth) st1

/-- The `while propagation_queue:` loop. Fuel bounds the number of pops; the
source loop always terminates because every push accompanies a new member of
`failed_nodes` (which is bounded by the node set), and `simulateCascadePropagation`
supplies fuel exceeding that bound. Exhausted fuel with a nonempty queue yields
`none` rather than fabricating a result the source would not produce. -/
def simLoop (e : Engine) (fm : FMode) (draws : ℕ → ℚ) : ℕ → SimState → Option SimState
  | 0, st => if st.queue.isEmpty then some st else none
  | fuel+1, st =>
    match st.queue with
    | [] => some st
    | (cur, depth) :: rest =>
      (simPopStep e fm draws cur depth { st with queue := rest }).bind
        (simLoop e fm draws fuel)

/-- Embeds `_simulate_cascade_propagation`. `none` models a raised `KeyError`
(unknown initial node or dangling dependent), which the caller's
`try/except` swallows. -/
def simulateCascadePropagation (e : Engine) (initialNode : String) (fm : FMode)
    (draws : ℕ → ℚ) : Option SimResult :=
  match alook initialNode e.nodes with
  | none => none
  | some n0 =>
    let st0 : SimState :=
      ⟨[initialNode], [initialNode],
       [TEvent.initialFailure 0 initialNode fm n0.criticalityScore], 0,
       n0.criticalityScore, [(initialNode, 0)], 0⟩
    match simLoop e fm draws (e.nodes.length + 1) st0 with
    | none => none
    | some st =>
      some ⟨st.affectedNodes,
            min 1 ((st.failedNodes.length : ℚ) / (e.nodes.length : ℚ)),
            st.timeline, st.totalImpact⟩

/-- Squared degree distance between two nodes; `_calculate_distance` returns
`sqrt` of this times 111, and is only used inside a `max`, which the squared
quantity determines monotonically. -/
def sqDistance (n m : DTNode) : ℚ := (n.lat - m.lat) ^ 2 + (n.lon - m.lon) ^ 2

/-- The cascade-radius block of `_generate_cascade_prediction` (lines 399-411),
up to the monotone `sqrt`-and-scale map recorded in `Pred.predictedRadiusSq`. -/
def maxRadiusSq (e : Engine) (initNode : DTNode) (affected : List String) : ℚ :=
  let locs := affected.filterMap (fun nid => alook nid e.nodes)
  (locs.map (fun n => sqDistance initNode n)).foldl max 0

/-- Lines 388-394: the failure mode is derived from the node's condition,
regardless of what a caller asked for. -/
def derivedFailureMode (node : DTNode) : FMode :=
  if 9/10 < node.currentLoad / node.capacity then FMode.overload
  else if node.healthScore < 6/10 then FMode.equipment_failure
  else FMode.structural_damage

/-- Strategy 1 of `_generate_pre_stabilization_strategies` (lines 533-554). -/
def mkStrategy1 (sid : ℕ) (criticalNodes : List String) : Strategy :=
  ⟨sid, criticalNodes,
   [SAction.loadReduction criticalNodes (3/10),
    SAction.backupActivation (criticalNodes.take 2) 2],
   6/10, 50000, 30, 8/10⟩

/-- Strategy 2 of `_generate_pre_stabilization_strategies` (lines 565-581);
`edge.split("_")[1]` is the second underscore-separated token of the edge id. -/
def mkStrategy2 (sid : ℕ) (depEdges : List String) : Strategy :=
  ⟨sid, depEdges.map (fun eid => ((eid.splitOn "_").getD 1 "")),
   [SAction.dependencyStrengthening depEdges (1/2)],
   4/10, 30000, 45, 6/10⟩

/-- One iteration of the `dependency_edges` loop (lines 558-563): append, for
one affected node, the ids of edges to dependents that are also affected.
`none` models the `KeyError` raised when the node id is not in `self.nodes`. -/
def collectStep (e : Engine) (affected : List String) (acc : List String)
    (nid : String) : Option (List String) :=
  match alook nid e.nodes with
  | none => none
  | some n =>
    some (acc ++ n.dependents.filterMap (fun depId =>
      if depId ∈ affected ∧ (alook (nid ++ "_" ++ depId) e.edges).isSome = true
      then some (nid ++ "_" ++ depId) else none))

/-- The `dependency_edges` loop (lines 557-563) over the first three affected
nodes. -/
def collectDepEdges (e : Engine) (affected : List String) : Option (List String) :=
  (affected.take 3).foldlM (collectStep e affected) []

/-- Embeds `_generate_pre_stabilization_strategies`. On `none` (an exception inside the
dependency-edge loop) nothing is stored, matching the source where the storing
loop at the end is never reached. -/
def genStrategies (e : Engine) (p : Pred) : Option Engine :=
  let criticalNodes := (p.affectedNodes.take 5).filter (fun nid =>
    match alook nid e.criticalNodeAnalyses with
    | some a => decide ((7:ℚ)/10 < a.stabilizationPriority)
    | none => false)
  let strats1 : List Strategy :=
    if criticalNodes.isEmpty then [] else [mkStrategy1 e.nextUuid criticalNodes]
  match collectDepEdges e p.affectedNodes with
  | none => none
  | some depEdges =>
    let strats2 : List Strategy :=
      if depEdges.isEmpty then []
      else [mkStrategy2 (e.nextUuid + strats1.length) depEdges]
    let strats := strats1 ++ strats2
    some { e with
      preStabilizationStrategies :=
        e.preStabilizationStrategies ++ strats.map (fun s => (s.strategyId, s)),
      nextUuid := e.nextUuid + strats.length }

/-- Lines 427-435 of `_generate_cascade_prediction`: append the prediction to
history, truncate to the most recent 100, and invoke the strategy generator
only when `cascade_probability > 0.7`. An exception inside the generator is
caught by the enclosing handler, after the append has already happened. -/
def storePredictionAndGate (e : Engine) (p : Pred) : Engine :=
  let preds := e.cascadePredictions ++ [p]
  let preds := if 100 < preds.length then preds.drop (preds.length - 100) else preds
  let e1 : Engine := { e with cascadePredictions := preds }
  if (7:ℚ)/10 < p.cascadeProbability then
    match genStrategies e1 p with
    | some e2 => e2
    | none => e1
  else e1

/-- Embeds `_generate_cascade_prediction`. Every exception inside it is caught and
logged (lines 437-438), so a failing run leaves the engine exactly as it was:
unknown node id (`KeyError` at line 386), zero capacity (`ZeroDivisionError` at
line 389), or a failure inside the simulation. -/
def generateCascadePrediction (e : Engine) (initialFailureNode : String)
    (draws : ℕ → ℚ) : Engine :=
  match alook initialFailureNode e.nodes with
  | none => e
  | some node =>
    if node.capacity = 0 then e
    else
      let fm := derivedFailureMode node
      match simulateCascadePropagation e initialFailureNode fm draws with
      | none => e
      | some res =>
        let p : Pred :=
          ⟨initialFailureNode, fm, res.cascadeProbability,
           maxRadiusSq e node res.affectedNodes, res.affectedNodes,
           res.timeline, res.totalImpact, 85/100⟩
        storePredictionAndGate e p

/-- The result of `predict_cascade`: either a prediction dict or an error dict. -/
inductive PCResult
  | pred (p : Pred)
  | err (msg : String)
deriving DecidableEq

/-- Embeds `predict_cascade`. The requested failure-mode string is validated (a
`ValueError` from the enum constructor yields the invalid-mode error) and then
never used again; the newest stored prediction for the node is returned, or the
no-prediction error. -/
def predictCascade (e : Engine) (initialFailureNode failureMode : String)
    (draws : ℕ → ℚ) : PCResult × Engine :=
  match parseFailureMode failureMode with
  | none => (PCResult.err ("Invalid failure mode: " ++ failureMode), e)
  | some _fm =>
    let e1 := generateCascadePrediction e initialFailureNode draws
    match e1.cascadePredictions.reverse.find?
        (fun p => p.initialFailureNode == initialFailureNode) with
    | some p => (PCResult.pred p, e1)
    | none => (PCResult.err "No prediction found for this node", e1)

/-- The node-perturbation phase of one `_continuous_monitoring` tick
(lines 364-367): every node's health score is multiplied by a fresh
`np.random.uniform(0.98, 1.0)` draw and its load redrawn as
`np.random.uniform(0.3, 0.9) * capacity`; the draws are supplied as per-node
factor oracles. The prediction generation the tick then performs for flagged
nodes goes through `generateCascadePrediction`, which never modifies node
fields. -/
def monitorTick (e : Engine) (healthFactor loadFactor : String → ℚ) : Engine :=
  { e with nodes := e.nodes.map (fun kn =>
      (kn.1, { kn.2 with
        healthScore := kn.2.healthScore * healthFactor kn.1,
        currentLoad := loadFactor kn.1 * kn.2.capacity })) }

/-- Iterated monitoring ticks with per-tick factor oracles. -/
def monitorTicks (e : Engine) (hf lf : ℕ → String → ℚ) : ℕ → Engine
  | 0 => e
  | k+1 => monitorTick (monitorTicks e hf lf k) (hf k) (lf k)

/-- Embeds `self.nodes[nid].criticality_score` as read by the centrality loop; a
dangling id would raise `KeyError` in the source, which cannot happen on the
well-formed states this is applied to (every listed dependent/dependency has a
node), so it is given the neutral value 0 here. -/
def critOf (e : Engine) (nid : String) : ℚ :=
  match alook nid e.nodes with
  | some n => n.criticalityScore
  | none => 0

/-- Lines 294-303: centrality as the criticality-weighted connection count,
normalized by total degree (at least 1) and clamped to 1. -/
def centralityScoreOf (e : Engine) (n : DTNode) : ℚ :=
  let raw := (n.dependents.map (fun d => critOf e d * (1/2))).sum
    + (n.dependencies.map (fun d => critOf e d * (3/10))).sum
  let maxCentrality : ℚ := max ((n.dependents.length + n.dependencies.length : ℕ) : ℚ) 1
  min 1 (raw / maxCentrality)

/-- The recursive `dfs_contribution` of `_calculate_cascade_contribution`, with
the shared mutable `visited` set threaded through. Recursion is fueled; depths
0..6 occur (the `depth > 5` guard stops level 6 before recursing), so the fuel
of 7 used below never runs out, and the fueled function agrees with the
source's unbounded recursion. -/
def dfsContribution (e : Engine) : ℕ → List String → String → ℕ → ℚ × List String
  | 0, visited, _, _ => (0, visited)
  | fuel+1, visited, cur, depth =>
    if cur ∈ visited ∨ 5 < depth then (0, visited)
    else
      let deps :=
        match alook cur e.nodes with
        | some n => n.dependents
        | none => []
      deps.foldl
        (fun acc depId =>
          match alook (cur ++ "_" ++ depId) e.edges with
          | none => acc
          | some ed =>
            let w := ed.failurePropagationWeight
            let c1 := acc.1 + w * (1 - (depth : ℚ) * (1/10))
            let sub := dfsContribution e fuel acc.2 depId (depth + 1)
            (c1 + sub.1 * w * (1/2), sub.2))
        (0, visited ++ [cur])

/-- Embeds `_calculate_cascade_contribution`. -/
def cascadeContributionScoreOf (e : Engine) (nid : String) : ℚ :=
  min 1 ((dfsContribution e 7 [] nid 0).1 / 10)

/-- Line 309: `(1 - health) * (1 - redundancy/5) * criticality`. -/
def vulnerabilityScore (n : DTNode) : ℚ :=
  (1 - n.healthScore) * (1 - (n.redundancyLevel : ℚ) / 5) * n.criticalityScore

/-- One entry of `_calculate_critical_node_analyses`. -/
def calcCNA (e : Engine) (nid : String) (n : DTNode) : CNA :=
  let c := centralityScoreOf e n
  let cc := cascadeContributionScoreOf e nid
  let v := vulnerabilityScore n
  let sp := c * (4/10) + cc * (4/10) + v * (2/10)
  let recs := (if (7:ℚ)/10 < v then ["increase_redundancy"] else [])
    ++ (if (8:ℚ)/10 < c then ["enhance_monitoring"] else [])
    ++ (if (7:ℚ)/10 < cc then ["pre_stabilization"] else [])
  ⟨nid, c, cc, v, sp, recs⟩

/-- Embeds `_calculate_critical_node_analyses` over all nodes. -/
def calcCriticalNodeAnalyses (e : Engine) : List (String × CNA) :=
  e.nodes.map (fun kn => (kn.1, calcCNA e kn.1 kn.2))

end DT

namespace DT

/-- A node as `_initialize_infrastructure_network` creates it. The four
randomized fields are fixed at one admissible draw of the initializer:
`current_load = 0.5 * capacity` (`np.random.uniform(0.3, 0.9) * capacity`),
`health_score = 0.8` (`np.random.uniform(0.7, 1.0)`),
`redundancy_level = 2` (`np.random.randint(1, 4)`),
`repair_time_hours = 10` (`np.random.uniform(2, 24)`); everything else is the
deterministic config value. -/
def mkSeedNode (nodeId name : String) (t : NType) (lat lon capacity crit : ℚ) : DTNode :=
  ⟨nodeId, name, t, lat, lon, capacity, capacity * (1/2), 8/10, 2, 10, crit, [], []⟩

/-- The 18 `node_configs` of `_initialize_infrastructure_network`. -/
def seedNodes : List (String × DTNode) :=
  [("power_main_mumbai", mkSeedNode "power_main_mumbai" "Mumbai Main Power Station" NType.power_grid (190760/10000) (728777/10000) 1000 (95/100)),
   ("power_suburban_1", mkSeedNode "power_suburban_1" "Suburban Power Substation 1" NType.power_grid (191160/10000) (729177/10000) 500 (8/10)),
   ("power_suburban_2", mkSeedNode "power_suburban_2" "Suburban Power Substation 2" NType.power_grid (190360/10000) (728377/10000) 500 (8/10)),
   ("power_industrial", mkSeedNode "power_industrial" "Industrial Power Plant" NType.power_grid (191560/10000) (729577/10000) 800 (85/100)),
   ("telecom_main_mumbai", mkSeedNode "telecom_main_mumbai" "Mumbai Main Telecom Tower" NType.telecom_tower (190860/10000) (728877/10000) 100 (9/10)),
   ("telecom_south", mkSeedNode "telecom_south" "South Mumbai Tower" NType.telecom_tower (190260/10000) (728277/10000) 80 (7/10)),
   ("telecom_north", mkSeedNode "telecom_north" "North Mumbai Tower" NType.telecom_tower (191460/10000) (729477/10000) 80 (7/10)),
   ("telecom_west", mkSeedNode "telecom_west" "West Mumbai Tower" NType.telecom_tower (190760/10000) (728177/10000) 60 (6/10)),
   ("water_main_mumbai", mkSeedNode "water_main_mumbai" "Mumbai Main Water Plant" NType.water_system (190560/10000) (728577/10000) 2000 (9/10)),
   ("water_east", mkSeedNode "water_east" "East Water Treatment" NType.water_system (191260/10000) (729277/10000) 800 (75/100)),
   ("water_west", mkSeedNode "water_west" "West Water Treatment" NType.water_system (190060/10000) (727877/10000) 800 (75/100)),
   ("bridge_sealink", mkSeedNode "bridge_sealink" "Sea Link Bridge" NType.transport_bridge (190160/10000) (728177/10000) 500 (85/100)),
   ("bridge_eastern", mkSeedNode "bridge_eastern" "Eastern Express Bridge" NType.transport_bridge (191060/10000) (729077/10000) 300 (7/10)),
   ("hospital_main", mkSeedNode "hospital_main" "Mumbai Main Hospital" NType.hospital (191360/10000) (729377/10000) 1000 (95/100)),
   ("hospital_south", mkSeedNode "hospital_south" "South Mumbai Hospital" NType.hospital (190060/10000) (728077/10000) 500 (8/10)),
   ("hospital_north", mkSeedNode "hospital_north" "North Mumbai Hospital" NType.hospital (191660/10000) (729677/10000) 500 (8/10)),
   ("comm_control", mkSeedNode "comm_control" "Communication Control Center" NType.communication_center (190760/10000) (728777/10000) 200 (98/100)),
   ("comm_backup", mkSeedNode "comm_backup" "Backup Communication Center" NType.communication_center (191460/10000) (729477/10000) 100 (85/100))]

/-- One row of the `dependencies` table. -/
structure DepSpec where
  src : String
  tgt : String
  dtype : String
  weight : ℚ
  recov : ℚ
  dist : ℚ

/-- The 21 `dependencies` rows of `_initialize_infrastructure_network`, in
order. -/
def seedDependencies : List DepSpec :=
  [⟨"power_main_mumbai", "telecom_main_mumbai", "power_supply", 9/10, 8/10, 5⟩,
   ⟨"power_main_mumbai", "water_main_mumbai", "power_supply", 85/100, 9/10, 8⟩,
   ⟨"power_main_mumbai", "hospital_main", "power_supply", 95/100, 9/10, 3⟩,
   ⟨"power_main_mumbai", "comm_control", "power_supply", 98/100, 95/100, 2⟩,
   ⟨"power_suburban_1", "telecom_south", "power_supply", 8/10, 7/10, 3⟩,
   ⟨"power_suburban_2", "telecom_north", "power_supply", 8/10, 7/10, 3⟩,
   ⟨"power_industrial", "bridge_sealink", "power_supply", 7/10, 6/10, 10⟩,
   ⟨"telecom_main_mumbai", "comm_control", "data_link", 9/10, 8/10, 1⟩,
   ⟨"telecom_south", "hospital_south", "emergency_comm", 7/10, 6/10, 2⟩,
   ⟨"telecom_north", "hospital_north", "emergency_comm", 7/10, 6/10, 2⟩,
   ⟨"water_main_mumbai", "hospital_main", "water_supply", 9/10, 8/10, 2⟩,
   ⟨"water_main_mumbai", "power_main_mumbai", "cooling_water", 6/10, 5/10, 5⟩,
   ⟨"water_east", "hospital_south", "water_supply", 8/10, 7/10, 1⟩,
   ⟨"water_west", "hospital_north", "water_supply", 8/10, 7/10, 1⟩,
   ⟨"bridge_sealink", "hospital_main", "patient_transport", 6/10, 5/10, 8⟩,
   ⟨"bridge_eastern", "hospital_south", "patient_transport", 5/10, 4/10, 5⟩,
   ⟨"comm_control", "power_main_mumbai", "control_signals", 8/10, 7/10, 2⟩,
   ⟨"comm_backup", "comm_control", "backup_link", 9/10, 8/10, 15⟩,
   ⟨"telecom_main_mumbai", "power_suburban_1", "coordination", 3/10, 2/10, 7⟩,
   ⟨"hospital_main", "telecom_main_mumbai", "medical_coordination", 4/10, 3/10, 1⟩,
   ⟨"water_main_mumbai", "telecom_main_mumbai", "sensor_data", 2/10, 1/10, 3⟩]

/-- The edge-creation loop body (lines 268-286): register the edge under
`f"{source}_{target}"` and append to the endpoint nodes' dependents /
dependencies lists. -/
def addDependencyEdge (e : Engine) (d : DepSpec) : Engine :=
  let ed : DTEdge := ⟨d.src, d.tgt, d.dtype, d.weight, d.recov, d.dist⟩
  { e with
    edges := e.edges ++ [(d.src ++ "_" ++ d.tgt, ed)],
    nodes := amodify d.tgt (fun n => { n with dependencies := n.dependencies ++ [d.src] })
      (amodify d.src (fun n => { n with dependents := n.dependents ++ [d.tgt] }) e.nodes) }

/-- The engine after node and edge creation, before
`_calculate_critical_node_analyses`. -/
def seedEngineBase : Engine :=
  seedDependencies.foldl addDependencyEdge ⟨seedNodes, [], [], [], [], 0⟩

/-- The engine as `__init__` leaves it (for the fixed admissible random draw of
`mkSeedNode`): seeded network plus the computed critical-node analyses. -/
def engine0 : Engine :=
  { seedEngineBase with criticalNodeAnalyses := calcCriticalNodeAnalyses seedEngineBase }

/-- A draw oracle that always returns 1: `np.random.random() < p` fails for
every probability `p ≤ 1`, so no failure ever propagates. -/
def drawsOne : ℕ → ℚ := fun _ => 1

/-- A draw oracle that always returns 0: propagation succeeds across every edge
with positive adjusted probability. -/
def drawsZero : ℕ → ℚ := fun _ => 0

end DT

namespace PCF

/-- The `trigger_event` dict of `predict_cascade_failure`: all fields are read
with `.get` and defaults. -/
structure TriggerEvent where
  severity : Option ℚ
  location : Option String
  disasterType : Option String
deriving DecidableEq

/-- Embeds `random.uniform(lo, hi)` as called inside this module: the module never
imports `random`, so the call raises `NameError` (modelled as `none`). -/
def randomUniform (_lo _hi : ℚ) : Option ℚ := none

/-- Embeds `datetime.datetime.now()` as written in this module: the module does
`from datetime import datetime`, binding `datetime` to the class, so the
attribute access raises `AttributeError` (modelled as `none`); the month the
source wants is never obtained. -/
def currentMonth : Option ℕ := none

/-- Embeds `len(x)` on the integer `dependencies` entry of the vulnerability table:
`len` of an `int` raises `TypeError` (modelled as `none`). -/
def pyLenOfInt (_n : ℤ) : Option ℕ := none

/-- Embeds `self.get_severity_level(...)`: the class defines no such method (its
intended body is the orphaned dead code at lines 681-688), so the call raises
`AttributeError` (modelled as `none`). -/
def getSeverityLevel (_score : ℚ) : Option String := none

/-- The fields of `get_realtime_sensor_data`'s result that the caller reads. -/
structure SensorData where
  anomalyScore : ℚ
  loadFactor : ℚ
  dataQuality : ℚ
deriving DecidableEq

/-- Embeds `get_realtime_sensor_data`: the body's `random.uniform` calls raise
`NameError`, caught by its own handler, which returns the fixed fallback
`{'anomaly_score': 0, 'load_factor': 1.0, 'data_quality': 0.7}`. -/
def getRealtimeSensorData : SensorData :=
  match randomUniform 0 (3/10), randomUniform (8/10) (12/10), randomUniform (6/10) (9/10) with
  | some a, some l, some q => ⟨a, l, q⟩
  | _, _, _ => ⟨0, 1, 7/10⟩

/-- The fields of `get_historical_disaster_probability`'s result that the
caller reads; the fallback dict carries no `data_completeness`, hence the
`Option`. -/
structure HistProb where
  probability : ℚ
  dataCompleteness : Option ℚ
deriving DecidableEq

/-- The `historical_probabilities` table with its two `.get` defaults; the
location default `{'earthquake': 0.1}` yields 0.1 for every disaster type. -/
def historicalBaseProbability (loc dtype : String) : ℚ :=
  if loc = "mumbai" then
    if dtype = "earthquake" then 15/100
    else if dtype = "flood" then 25/100
    else if dtype = "cyclone" then 2/10
    else 1/10
  else if loc = "delhi" then
    if dtype = "earthquake" then 12/100
    else if dtype = "flood" then 18/100
    else if dtype = "cyclone" then 15/100
    else 1/10
  else if loc = "chennai" then
    if dtype = "earthquake" then 8/100
    else if dtype = "flood" then 35/100
    else if dtype = "cyclone" then 3/10
    else 1/10
  else if loc = "kolkata" then
    if dtype = "earthquake" then 1/10
    else if dtype = "flood" then 3/10
    else if dtype = "cyclone" then 25/100
    else 1/10
  else if loc = "bangalore" then
    if dtype = "earthquake" then 5/100
    else if dtype = "flood" then 2/10
    else if dtype = "cyclone" then 18/100
    else 1/10
  else 1/10

/-- Embeds `get_historical_disaster_probability`: the body reaches
`datetime.datetime.now().month`, which raises, so its own handler returns the
fallback `{'probability': 0.1, 'source': 'fallback'}`. -/
def getHistoricalDisasterProbability (ev : TriggerEvent) : HistProb :=
  let dtype := ev.disasterType.getD "earthquake"
  let loc := ev.location.getD "mumbai"
  let base := historicalBaseProbability loc dtype
  match currentMonth, randomUniform (7/10) (9/10), randomUniform (6/10) (9/10) with
  | some m, some _conf, some comp =>
    ⟨if 6 ≤ m ∧ m ≤ 9 ∧ dtype = "flood" then base * (15/10) else base, some comp⟩
  | _, _, _ => ⟨1/10, none⟩

/-- The fields of the `vulnerability_scores` entries that the caller reads;
`dependencies` is an integer in every entry (15 / 18 / 12 / default 10). -/
structure VulnWeights where
  vulnerabilityScore : ℚ
  dependencyDensity : ℚ
  dependenciesCount : ℤ
deriving DecidableEq

/-- Embeds `get_infrastructure_vulnerability` (pure table lookup, its handler never
fires). -/
def getInfrastructureVulnerability (ev : TriggerEvent) : VulnWeights :=
  let loc := ev.location.getD "mumbai"
  if loc = "mumbai" then ⟨65/100, 8/10, 15⟩
  else if loc = "delhi" then ⟨55/100, 7/10, 18⟩
  else if loc = "chennai" then ⟨75/100, 6/10, 12⟩
  else ⟨1/2, 1/2, 10⟩

/-- Embeds `calculate_cascade_probability` (lines 789-804; its internal handler never
fires on rational inputs). -/
def calculateCascadeProbability (riskScore loadFactor dependencyDensity : ℚ) : ℚ :=
  min (95/100) (riskScore / 100 + loadFactor * (2/10) + dependencyDensity * (15/100))

/-- Embeds `calculate_prediction_confidence` (lines 810-825; weights 0.4/0.3/0.3,
total 1). -/
def calculatePredictionConfidence (qualityFactors : List ℚ) : ℚ :=
  let weights : List ℚ := [4/10, 3/10, 3/10]
  let ws := ((qualityFactors.zip weights).map (fun p => p.1 * p.2)).sum
  let total := weights.sum
  (if 0 < total then min (95/100) (ws / total) else 1/2) * 100

/-- The result fields of `predict_cascade_failure` the claims are about;
`hasError` records whether the dict carries the `'error'` key. -/
structure PCFResult where
  riskScore : ℚ
  predictionConfidence : ℚ
  cascadingFailureProbability : ℚ
  severityLevel : String
  hasError : Bool
deriving DecidableEq

/-- The `except` branch of `predict_cascade_failure` (lines 674-680): a
default-scored result carrying an `'error'` entry. -/
def defaultErrorPrediction : PCFResult := ⟨50, 30, 25, "medium", true⟩

/-- The `try` body of `predict_cascade_failure` (lines 610-670), `none` where it
raises. The body always raises: first at `len(...)` applied to the integer
`dependencies` entry while assembling the confidence factors (line 646); were
that repaired, `self.get_severity_level` (line 654) and
`datetime.datetime.now()` (line 663) raise as well. -/
def predictCascadeFailureTry (ev : TriggerEvent) : Option PCFResult :=
  let realtime := getRealtimeSensorData
  let hist := getHistoricalDisasterProbability ev
  let vuln := getInfrastructureVulnerability ev
  let baseRisk := ev.severity.getD (1/2) * 50
  let sensorInfluence := realtime.anomalyScore * (3/10)
  let historicalInfluence := hist.probability * 25
  let vulnerabilityInfluence := vuln.vulnerabilityScore * (1/4)
  let combined := min 100 (baseRisk + sensorInfluence + historicalInfluence + vulnerabilityInfluence)
  let cascadeProbability :=
    calculateCascadeProbability combined realtime.loadFactor vuln.dependencyDensity
  match pyLenOfInt vuln.dependenciesCount with
  | none => none
  | some depLen =>
    let confidence := calculatePredictionConfidence
      [realtime.dataQuality, hist.dataCompleteness.getD (4/5), (depLen : ℚ) / 10]
    match getSeverityLevel combined with
    | none => none
    | some lvl =>
      match currentMonth with
      | none => none
      | some _ts => some ⟨combined, confidence, cascadeProbability, lvl, false⟩

/-- Embeds `predict_cascade_failure`: the `try` body's result, or the default-scored
error dict from the `except` branch. -/
def predictCascadeFailure (ev : TriggerEvent) : PCFResult :=
  match predictCascadeFailureTry ev with
  | some r => r
  | none => defaultErrorPrediction

/-- A representative trigger event: a severity-0.9 earthquake in Mumbai. -/
def mumbaiEarthquake : TriggerEvent := ⟨some (9/10), some "mumbai", some "earthquake"⟩

end PCF

namespace DT

/-- Constant per-tick health decay factor 0.99 (an admissible
`np.random.uniform(0.98, 1.0)` draw) for concrete monitoring runs. -/
def constHealthFactor : ℕ → String → ℚ := fun _ _ => 99/100

/-- Constant per-tick load factor 0.5 (an admissible
`np.random.uniform(0.3, 0.9)` draw) for concrete monitoring runs. -/
def constLoadFactor : ℕ → String → ℚ := fun _ _ => 1/2

/-- The concrete simulation result of a run from `power_main_mumbai` in which no
draw is below its failure probability. -/
def simWitnessResult : SimResult :=
  (simulateCascadePropagation engine0 "power_main_mumbai" FMode.overload drawsOne).getD default

/-- The concrete simulation result of a run from `hospital_main` with the same
draw oracle. -/
def simWitnessResult2 : SimResult :=
  (simulateCascadePropagation engine0 "hospital_main" FMode.overload drawsOne).getD default

/-- The stored `power_main_mumbai` node of the seeded engine. -/
def powerMainNode : DTNode := (alook "power_main_mumbai" engine0.nodes).getD default

/-- The stored `power_main_mumbai` node after three monitoring ticks with the
constant factors. -/
def tickedPowerMain : DTNode :=
  (alook "power_main_mumbai" (monitorTicks engine0 constHealthFactor constLoadFactor 3).nodes).getD
    default

/-- A prediction shaped like a simulator output (initial node first, its failed
dependent second) whose cascade probability is 0.85. -/
def gateWitnessPred : Pred :=
  ⟨"power_main_mumbai", FMode.overload, 17/20, 0,
   ["power_main_mumbai", "telecom_main_mumbai"], [], 0, 85/100⟩

/-- The same prediction with cascade probability 0.5, below the gate. -/
def lowGateWitnessPred : Pred :=
  ⟨"power_main_mumbai", FMode.overload, 1/2, 0,
   ["power_main_mumbai", "telecom_main_mumbai"], [], 0, 85/100⟩

end DT

/-! ## Helper lemmas -/

theorem alook_mem {V : Type} (k : String) (v : V) :
    ∀ l : List (String × V), alook k l = some v → (k, v) ∈ l := by
  intro l
  induction l with
  | nil => intro h; cases h
  | cons p rest ih =>
    intro h
    obtain ⟨k', v'⟩ := p
    unfold alook at h
    by_cases hk : k' = k
    · rw [if_pos hk] at h
      cases h
      subst hk
      exact List.mem_cons_self _ _
    · rw [if_neg hk] at h
      exact List.mem_cons_of_mem _ (ih h)

theorem riskAt_aset (k : String) (v : ℚ) (m : List (String × ℚ)) (n : String) :
    riskAt (aset k v m) n = if k = n then v else riskAt m n := by
  induction m with
  | nil =>
    by_cases h : k = n <;> simp [aset, riskAt, alook, h]
  | cons p rest ih =>
    obtain ⟨k', v'⟩ := p
    by_cases h1 : k' = k
    · subst h1
      by_cases h2 : k' = n <;> simp [aset, riskAt, alook, h2]
    · by_cases h2 : k' = n
      · subst h2
        have hkn : ¬ k = k' := fun hc => h1 hc.symm
        simp [aset, riskAt, alook, h1, hkn]
      · simpa [aset, riskAt, alook, h1, h2] using ih

namespace GraphRisk

theorem processEdge_risk_mono (g : Graph) (dt : String) (step : ℕ)
    (affected : List (String × NState)) (srcId : String) (srcRisk srcTime : ℚ)
    (st : StepState) (ed : GEdge) (n : String) :
    riskAt st.1 n ≤ riskAt (processEdge g dt step affected srcId srcRisk srcTime st ed).1 n := by
  unfold processEdge
  dsimp only
  split
  · exact le_refl _
  · split
    · next hlt =>
      dsimp only
      rw [riskAt_aset]
      split
      · next heq =>
        subst heq
        exact le_max_left _ _
      · exact le_refl _
    · exact le_refl _

theorem foldl_riskAt_mono {α : Type} (f : StepState → α → StepState)
    (hf : ∀ st a n, riskAt st.1 n ≤ riskAt (f st a).1 n) :
    ∀ (l : List α) (st : StepState) (n : String),
      riskAt st.1 n ≤ riskAt (l.foldl f st).1 n := by
  intro l
  induction l with
  | nil => intro st n; exact le_refl _
  | cons a rest ih =>
    intro st n
    exact le_trans (hf st a n) (ih (f st a) n)

theorem runStep_risk_mono (g : Graph) (dt : String) (step : ℕ)
    (affected : List (String × NState)) (risks : List (String × ℚ))
    (path : List String) (n : String) :
    riskAt risks n ≤ riskAt (runStep g dt step affected risks path).1 n := by
  unfold runStep
  refine foldl_riskAt_mono (runSource g dt step affected) ?_ affected (risks, [], path) n
  intro st src m
  unfold runSource
  exact foldl_riskAt_mono
    (processEdge g dt step affected src.1 src.2.risk src.2.timeMinutes)
    (processEdge_risk_mono g dt step affected src.1 src.2.risk src.2.timeMinutes)
    (successors g src.1) st m

theorem propLoop_risk_mono (g : Graph) (dt : String) :
    ∀ (rem step : ℕ) (aff : List (String × NState)) (risks : List (String × ℚ))
      (path : List String) (n : String),
      riskAt risks n ≤ riskAt (propLoop g dt step rem aff risks path).2.1 n := by
  intro rem
  induction rem with
  | zero => intro step aff risks path n; exact le_refl _
  | succ k ih =>
    intro step aff risks path n
    unfold propLoop
    dsimp only
    split
    · exact runStep_risk_mono g dt step aff risks path n
    · exact le_trans (runStep_risk_mono g dt step aff risks path n)
        (ih (step+1) (mergeAffected aff (runStep g dt step aff risks path).2.1)
          (runStep g dt step aff risks path).1
          (runStep g dt step aff risks path).2.2 n)

end GraphRisk

/-! ## Claim theorems -/

/-- C1 (confirmed). During a single call to `analyze_cascading_risk` every
node's working risk value is monotonically non-decreasing: a single edge update
(`processEdge`), a whole propagation step (`runStep`), and any number of
propagation-loop steps (`propLoop`, so in particular any later step compared to
any earlier one) never lower any node's entry of the shared working risk map —
updates happen only through `max`-aggregation under a strict-increase guard.
The statement quantifies over every graph, including cyclic ones, and every
intermediate loop state. -/
theorem graph_risk_monotone_propagation :
    (∀ (g : GraphRisk.Graph) (dt : String) (step : ℕ)
       (affected : List (String × GraphRisk.NState)) (srcId : String)
       (srcRisk srcTime : ℚ) (st : GraphRisk.StepState) (ed : GraphRisk.GEdge)
       (n : String),
       riskAt st.1 n ≤
         riskAt (GraphRisk.processEdge g dt step affected srcId srcRisk srcTime st ed).1 n) ∧
    (∀ (g : GraphRisk.Graph) (dt : String) (step : ℕ)
       (affected : List (String × GraphRisk.NState)) (risks : List (String × ℚ))
       (path : List String) (n : String),
       riskAt risks n ≤ riskAt (GraphRisk.runStep g dt step affected risks path).1 n) ∧
    (∀ (g : GraphRisk.Graph) (dt : String) (step rem : ℕ)
       (aff : List (String × GraphRisk.NState)) (risks : List (String × ℚ))
       (path : List String) (n : String),
       riskAt risks n ≤ riskAt (GraphRisk.propLoop g dt step rem aff risks path).2.1 n) :=
  ⟨GraphRisk.processEdge_risk_mono,
   GraphRisk.runStep_risk_mono,
   fun g dt step rem aff risks path n => GraphRisk.propLoop_risk_mono g dt rem step aff risks path n⟩

/-- C2 counterexample. The working risk map of `analyze_cascading_risk` is the
shared `self.node_risks` store: after the Scenario A/B earthquake run on a
fresh analyzer the stored per-node risks differ from before the call, and a
second (mild, unmapped-type) run observes the first run's values — the state it
leaves at `hospital_1` differs from what the same call leaves when run on a
fresh analyzer. -/
theorem analyze_mutates_shared_node_risks :
    GraphRisk.stateAfterFirstRun.nodeRisks ≠ GraphRisk.initialState.nodeRisks ∧
    riskAt (GraphRisk.analyzeCascadingRisk GraphRisk.stateAfterFirstRun
        GraphRisk.mildStormAtPowerGrid 4).2.nodeRisks "hospital_1" ≠
      riskAt (GraphRisk.analyzeCascadingRisk GraphRisk.initialState
        GraphRisk.mildStormAtPowerGrid 4).2.nodeRisks "hospital_1" := by
  constructor
  · have h1 : riskAt GraphRisk.stateAfterFirstRun.nodeRisks "power_grid_1" = 171/200 := by
      with_unfolding_all rfl
    have h2 : riskAt GraphRisk.initialState.nodeRisks "power_grid_1" = 0 := by
      with_unfolding_all rfl
    intro hc
    rw [hc, h2] at h1
    norm_num at h1
  · have h3 : riskAt (GraphRisk.analyzeCascadingRisk GraphRisk.stateAfterFirstRun
        GraphRisk.mildStormAtPowerGrid 4).2.nodeRisks "hospital_1" = 607563/800000 := by
      with_unfolding_all rfl
    have h4 : riskAt (GraphRisk.analyzeCascadingRisk GraphRisk.initialState
        GraphRisk.mildStormAtPowerGrid 4).2.nodeRisks "hospital_1" = 969/16000 := by
      with_unfolding_all rfl
    rw [h3, h4]
    norm_num

/-- C2 (corrected). Amended claim: the per-run working risk map *is* the shared
`self.node_risks` store. After `analyze_cascading_risk` returns, the analyzer's
stored per-node risk values hold the run's final working risks (Scenario A/B:
0.855, 0.75945375, 0.67951125, 0.63954), a second run reads and keeps them (the
stale `hospital_1` value survives a later mild run untouched), and only
`reset_risks` restores the fresh all-zero store. -/
theorem analyze_writes_persist_and_reset_clears :
    riskAt GraphRisk.stateAfterFirstRun.nodeRisks "power_grid_1" = 855/1000 ∧
    riskAt GraphRisk.stateAfterFirstRun.nodeRisks "hospital_1" = 75945375/100000000 ∧
    riskAt GraphRisk.stateAfterFirstRun.nodeRisks "water_supply_1" = 67951125/100000000 ∧
    riskAt GraphRisk.stateAfterFirstRun.nodeRisks "telecom_1" = 63954/100000 ∧
    riskAt (GraphRisk.analyzeCascadingRisk GraphRisk.stateAfterFirstRun
        GraphRisk.mildStormAtPowerGrid 4).2.nodeRisks "hospital_1" = 75945375/100000000 ∧
    (GraphRisk.resetRisks GraphRisk.stateAfterFirstRun).nodeRisks =
      GraphRisk.initialState.nodeRisks := by
  refine ⟨?_, ?_, ?_, ?_, ?_, ?_⟩ <;> with_unfolding_all rfl

/-- C4 (confirmed). Scenario B: propagating source risk 0.855 across the
weight-0.80 edge from `power_grid_1` to `telecom_1` under an earthquake
(modifier 1.1, target resilience 0.5) yields exactly
0.855 × 0.80 × 1.1 × (1 − 0.5 × 0.3) = 0.63954, through the embedded
`final = base × modifier × (1 − resilience × 0.3)` computation; the initial
impact of Scenario A (0.9 × 0.95 = 0.855) is included for the source risk. -/
theorem scenario_b_propagation_value :
    GraphRisk.calcInitialImpact GraphRisk.initialGraph "earthquake" (9/10) "power_grid_1"
      = 855/1000 ∧
    GraphRisk.riskModifier "earthquake" GraphRisk.initialGraph "telecom_1" "power_grid_1"
      = 11/10 ∧
    GraphRisk.resilienceOf GraphRisk.initialGraph "telecom_1" = 1/2 ∧
    GraphRisk.finalRisk GraphRisk.initialGraph "earthquake" "power_grid_1" (855/1000)
      ⟨"power_grid_1", "telecom_1", 80/100, "power_dependency", 20⟩ = 63954/100000 ∧
    (855/1000 : ℚ) * (80/100) * (11/10) * (1 - (1/2) * (3/10)) = 63954/100000 := by
  refine ⟨?_, ?_, ?_, ?_, ?_⟩ <;> with_unfolding_all rfl

namespace DT

theorem foldlM_state_rel {α : Type} (P : SimState → SimState → Prop)
    (hrefl : ∀ s, P s s)
    (htrans : ∀ a b c, P a b → P b c → P a c)
    (f : SimState → α → Option SimState)
    (hf : ∀ s a s', f s a = some s' → P s s') :
    ∀ (l : List α) (s s' : SimState), List.foldlM f s l = some s' → P s s' := by
  intro l
  induction l with
  | nil =>
    intro s s' h
    simp only [List.foldlM_nil] at h
    cases h
    exact hrefl s
  | cons a rest ih =>
    intro s s' h
    rw [List.foldlM_cons] at h
    cases hfa : f s a with
    | none => rw [hfa] at h; cases h
    | some s1 =>
      rw [hfa] at h
      simp only [Option.bind_eq_bind, Option.some_bind] at h
      exact htrans s s1 s' (hf s a s1 hfa) (ih s1 s' h)

theorem processDependent_extends (e : Engine) (fm : FMode) (draws : ℕ → ℚ)
    (cur : String) (depth : ℕ) (st : SimState) (depId : String) (st' : SimState)
    (h : processDependent e fm draws cur depth st depId = some st') :
    ∃ xa xt xf, st'.affectedNodes = st.affectedNodes ++ xa ∧
      st'.timeline = st.timeline ++ xt ∧ st'.failedNodes = st.failedNodes ++ xf := by
  unfold processDependent at h
  split at h
  · cases h; exact ⟨[], [], [], by simp, by simp, by simp⟩
  · split at h
    · cases h; exact ⟨[], [], [], by simp, by simp, by simp⟩
    · split at h
      · cases h
      · dsimp only at h
        split at h
        · cases h
          refine ⟨_, _, _, rfl, rfl, rfl⟩
        · cases h; exact ⟨[], [], [], by simp, by simp, by simp⟩

theorem simPopStep_extends (e : Engine) (fm : FMode) (draws : ℕ → ℚ)
    (cur : String) (depth : ℕ) (st st' : SimState)
    (h : simPopStep e fm draws cur depth st = some st') :
    ∃ xa xt xf, st'.affectedNodes = st.affectedNodes ++ xa ∧
      st'.timeline = st.timeline ++ xt ∧ st'.failedNodes = st.failedNodes ++ xf := by
  unfold simPopStep at h
  split at h
  · cases h; exact ⟨[], [], [], by simp, by simp, by simp⟩
  · split at h
    · cases h
    · dsimp only at h
      have hext := foldlM_state_rel
        (fun s s' => ∃ xa xt xf, s'.affectedNodes = s.affectedNodes ++ xa ∧
          s'.timeline = s.timeline ++ xt ∧ s'.failedNodes = s.failedNodes ++ xf)
        (fun s => ⟨[], [], [], by simp, by simp, by simp⟩)
        (fun a b c hab hbc => by
          obtain ⟨xa1, xt1, xf1, h1, h2, h3⟩ := hab
          obtain ⟨xa2, xt2, xf2, h4, h5, h6⟩ := hbc
          exact ⟨xa1 ++ xa2, xt1 ++ xt2, xf1 ++ xf2,
            by rw [h4, h1, List.append_assoc],
            by rw [h5, h2, List.append_assoc],
            by rw [h6, h3, List.append_assoc]⟩)
        (processDependent e fm draws cur depth)
        (processDependent_extends e fm draws cur depth)
        _ _ _ h
      obtain ⟨xa, xt, xf, h1, h2, h3⟩ := hext
      exact ⟨xa, xt, xf, h1, h2, h3⟩

theorem simLoop_extends (e : Engine) (fm : FMode) (draws : ℕ → ℚ) :
    ∀ (fuel : ℕ) (st st' : SimState),
      simLoop e fm draws fuel st = some st' →
      ∃ xa xt xf, st'.affectedNodes = st.affectedNodes ++ xa ∧
        st'.timeline = st.timeline ++ xt ∧ st'.failedNodes = st.failedNodes ++ xf := by
  intro fuel
  induction fuel with
  | zero =>
    intro st st' h
    unfold simLoop at h
    split at h
    · cases h; exact ⟨[], [], [], by simp, by simp, by simp⟩
    · cases h
  | succ k ih =>
    intro st st' h
    unfold simLoop at h
    split at h
    · cases h; exact ⟨[], [], [], by simp, by simp, by simp⟩
    · next cur depth rest hq =>
      cases hpop : simPopStep e fm draws cur depth { st with queue := rest } with
      | none => rw [hpop] at h; cases h
      | some st1 =>
        rw [hpop] at h
        simp only [Option.bind_eq_bind, Option.some_bind] at h
        obtain ⟨xa1, xt1, xf1, h1, h2, h3⟩ :=
          simPopStep_extends e fm draws cur depth { st with queue := rest } st1 hpop
        obtain ⟨xa2, xt2, xf2, h4, h5, h6⟩ := ih st1 st' h
        exact ⟨xa1 ++ xa2, xt1 ++ xt2, xf1 ++ xf2,
          by rw [h4, h1]; simp [List.append_assoc],
          by rw [h5, h2]; simp [List.append_assoc],
          by rw [h6, h3]; simp [List.append_assoc]⟩

theorem genStrategies_fixed_fields (e : Engine) (p : Pred) (e2 : Engine)
    (h : genStrategies e p = some e2) :
    e2.cascadePredictions = e.cascadePredictions ∧ e2.nodes = e.nodes ∧
    e2.edges = e.edges := by
  unfold genStrategies at h
  split at h
  · cases h
  · cases h; exact ⟨rfl, rfl, rfl⟩

theorem storePredictionAndGate_nodes (e : Engine) (p : Pred) :
    (storePredictionAndGate e p).nodes = e.nodes := by
  unfold storePredictionAndGate
  dsimp only
  split
  · split
    · next e2 hgen =>
      exact (genStrategies_fixed_fields _ p e2 hgen).2.1
    · rfl
  · rfl

theorem storePredictionAndGate_mem (e : Engine) (p q : Pred)
    (h : p ∈ (storePredictionAndGate e q).cascadePredictions) :
    p ∈ e.cascadePredictions ∨ p = q := by
  unfold storePredictionAndGate at h
  dsimp only at h
  have hmem : p ∈
      (if 100 < (e.cascadePredictions ++ [q]).length then
        (e.cascadePredictions ++ [q]).drop ((e.cascadePredictions ++ [q]).length - 100)
      else e.cascadePredictions ++ [q]) := by
    split at h
    · split at h
      · next e2 hgen =>
        rw [(genStrategies_fixed_fields _ q e2 hgen).1] at h
        exact h
      · exact h
    · exact h
  have hmem2 : p ∈ e.cascadePredictions ++ [q] := by
    split at hmem
    · exact List.drop_subset _ _ hmem
    · exact hmem
  rcases List.mem_append.mp hmem2 with h1 | h1
  · exact Or.inl h1
  · exact Or.inr (List.mem_singleton.mp h1)

theorem alook_tick (hfk lfk : String → ℚ) :
    ∀ (l : List (String × DTNode)) (k : String),
      alook k (l.map (fun kn => (kn.1, { kn.2 with
        healthScore := kn.2.healthScore * hfk kn.1,
        currentLoad := lfk kn.1 * kn.2.capacity }))) =
      (alook k l).map (fun n => { n with
        healthScore := n.healthScore * hfk k,
        currentLoad := lfk k * n.capacity }) := by
  intro l
  induction l with
  | nil => intro k; rfl
  | cons kn rest ih =>
    intro k
    obtain ⟨k', v⟩ := kn
    by_cases hk : k' = k
    · subst hk
      simp [alook]
    · simp [alook, hk, ih]

end DT

/-- C10 (confirmed). For every initial node present in the graph and every
outcome of the random draws, `_simulate_cascade_propagation`'s result lists the
initial failure node first in `affected_nodes`, its timeline starts with the
`initial_failure` event at time 0, and the cascade probability is at least
`1 / (number of nodes)`, hence strictly positive, even when nothing else
fails. -/
theorem simulate_includes_initial_node (e : DT.Engine) (init : String)
    (fm : DT.FMode) (draws : ℕ → ℚ) (r : DT.SimResult)
    (h : DT.simulateCascadePropagation e init fm draws = some r) :
    ∃ n0, alook init e.nodes = some n0 ∧
      r.affectedNodes.head? = some init ∧
      r.timeline.head? = some (DT.TEvent.initialFailure 0 init fm n0.criticalityScore) ∧
      1 / (e.nodes.length : ℚ) ≤ r.cascadeProbability ∧
      0 < r.cascadeProbability := by
  unfold DT.simulateCascadePropagation at h
  split at h
  · cases h
  · next n0 h0 =>
    dsimp only at h
    split at h
    · cases h
    · next st hloop =>
      cases h
      obtain ⟨xa, xt, xf, ha, ht, hfa⟩ := DT.simLoop_extends e fm draws _ _ st hloop
      have hne : e.nodes ≠ [] := by
        intro hnil
        rw [hnil] at h0
        simp [alook] at h0
      have hN : (1 : ℚ) ≤ (e.nodes.length : ℚ) := by
        have : 1 ≤ e.nodes.length := List.length_pos.mpr hne
        exact_mod_cast this
      have hN0 : (0 : ℚ) < (e.nodes.length : ℚ) := lt_of_lt_of_le one_pos hN
      have hL : (1 : ℚ) ≤ (st.failedNodes.length : ℚ) := by
        have : 1 ≤ st.failedNodes.length := by
          rw [hfa]
          simp
        exact_mod_cast this
      have hlow : 1 / (e.nodes.length : ℚ) ≤
          min 1 ((st.failedNodes.length : ℚ) / (e.nodes.length : ℚ)) := by
        refine le_min ?_ ?_
        · rw [div_le_one hN0]
          exact hN
        · exact (div_le_div_iff_of_pos_right hN0).mpr hL
      refine ⟨n0, h0, ?_, ?_, hlow, lt_of_lt_of_le (by positivity) hlow⟩
      · rw [ha]
        rfl
      · rw [ht]
        rfl

/-- C10 witness: a concrete run from `power_main_mumbai` on the seeded engine
(with draws that propagate nothing) starts its affected list and timeline with
the initial node and has cascade probability exactly clamped above 1/18. -/
theorem simulate_includes_initial_node_witness :
    DT.simWitnessResult.affectedNodes.head? = some "power_main_mumbai" ∧
    DT.simWitnessResult.timeline.head? =
      some (DT.TEvent.initialFailure 0 "power_main_mumbai" DT.FMode.overload (95/100)) ∧
    (1 : ℚ) / 18 ≤ DT.simWitnessResult.cascadeProbability ∧
    0 < DT.simWitnessResult.cascadeProbability := by
  have h : DT.simulateCascadePropagation DT.engine0 "power_main_mumbai" DT.FMode.overload
      DT.drawsOne = some DT.simWitnessResult := by
    with_unfolding_all rfl
  obtain ⟨n0, hn0, h1, h2, h3, h4⟩ :=
    simulate_includes_initial_node DT.engine0 "power_main_mumbai" DT.FMode.overload
      DT.drawsOne DT.simWitnessResult h
  have hcrit : n0.criticalityScore = 95/100 := by
    have hp : alook "power_main_mumbai" DT.engine0.nodes = some DT.powerMainNode := by
      with_unfolding_all rfl
    rw [hn0] at hp
    cases hp
    with_unfolding_all rfl
  have hlen : DT.engine0.nodes.length = 18 := by with_unfolding_all rfl
  rw [hcrit] at h2
  rw [hlen] at h3
  exact ⟨h1, h2, by exact_mod_cast h3, h4⟩

/-- C9 (confirmed). All produced values stay in [0,1]: the cascade probability
of every completed simulation run; the vulnerability score
`(1 − health) × (1 − redundancy/5) × criticality` for any node with in-range
fields; the health score of every stored node after any number of monitoring
ticks whose decay factors lie in [0,1] (the source draws them from
[0.98, 1.0]), with the criticality score unchanged by ticking; and prediction
generation never modifies stored node fields at all. -/
theorem produced_scores_within_bounds :
    (∀ (e : DT.Engine) (init : String) (fm : DT.FMode) (draws : ℕ → ℚ)
       (r : DT.SimResult),
       DT.simulateCascadePropagation e init fm draws = some r →
       0 ≤ r.cascadeProbability ∧ r.cascadeProbability ≤ 1) ∧
    (∀ n : DT.DTNode, 0 ≤ n.healthScore → n.healthScore ≤ 1 →
       n.redundancyLevel ≤ 5 → 0 ≤ n.criticalityScore → n.criticalityScore ≤ 1 →
       0 ≤ DT.vulnerabilityScore n ∧ DT.vulnerabilityScore n ≤ 1) ∧
    (∀ (e : DT.Engine) (hfac lfac : ℕ → String → ℚ) (k : ℕ) (nid : String),
       (∀ i x, 0 ≤ hfac i x ∧ hfac i x ≤ 1) →
       ∀ n0, alook nid e.nodes = some n0 → 0 ≤ n0.healthScore → n0.healthScore ≤ 1 →
       ∃ n', alook nid (DT.monitorTicks e hfac lfac k).nodes = some n' ∧
         0 ≤ n'.healthScore ∧ n'.healthScore ≤ 1 ∧
         n'.criticalityScore = n0.criticalityScore) ∧
    (∀ (e : DT.Engine) (nid : String) (draws : ℕ → ℚ),
       (DT.generateCascadePrediction e nid draws).nodes = e.nodes) := by
  refine ⟨?_, ?_, ?_, ?_⟩
  · intro e init fm draws r h
    unfold DT.simulateCascadePropagation at h
    split at h
    · cases h
    · dsimp only at h
      split at h
      · cases h
      · cases h
        constructor
        · exact le_min zero_le_one (div_nonneg (Nat.cast_nonneg _) (Nat.cast_nonneg _))
        · exact min_le_left _ _
  · intro n h0 h1 h2 h3 h4
    unfold DT.vulnerabilityScore
    have hr0 : (0 : ℚ) ≤ (n.redundancyLevel : ℚ) / 5 := by positivity
    have hr5 : (n.redundancyLevel : ℚ) / 5 ≤ 1 := by
      rw [div_le_one (by norm_num : (0:ℚ) < 5)]
      exact_mod_cast h2
    have e1 : (0 : ℚ) ≤ 1 - n.healthScore := by linarith
    have e2 : (0 : ℚ) ≤ 1 - (n.redundancyLevel : ℚ) / 5 := by linarith
    have e3 : 1 - n.healthScore ≤ 1 := by linarith
    have e4 : 1 - (n.redundancyLevel : ℚ) / 5 ≤ 1 := by linarith
    refine ⟨mul_nonneg (mul_nonneg e1 e2) h3, ?_⟩
    exact mul_le_one₀ (mul_le_one₀ e3 e2 e4) h3 h4
  · intro e hfac lfac k nid hfb
    induction k with
    | zero =>
      intro n0 hl hh0 hh1
      exact ⟨n0, hl, hh0, hh1, rfl⟩
    | succ m ih =>
      intro n0 hl hh0 hh1
      obtain ⟨n', hl', hb0, hb1, hcrit⟩ := ih n0 hl hh0 hh1
      refine Exists.intro
        ({ n' with healthScore := n'.healthScore * hfac m nid,
                   currentLoad := lfac m nid * n'.capacity }) ⟨?_, ?_, ?_, ?_⟩
      · show alook nid (DT.monitorTick (DT.monitorTicks e hfac lfac m) (hfac m) (lfac m)).nodes
          = some _
        unfold DT.monitorTick
        dsimp only
        rw [DT.alook_tick, hl']
        rfl
      · exact mul_nonneg hb0 (hfb m nid).1
      · exact mul_le_one₀ hb1 (hfb m nid).1 (hfb m nid).2
      · exact hcrit
  · intro e nid draws
    unfold DT.generateCascadePrediction
    split
    · rfl
    · dsimp only
      split
      · rfl
      · split
        · rfl
        · exact DT.storePredictionAndGate_nodes _ _

/-- C9 witness: concrete instances — the probability of a completed concrete
run, the vulnerability of the stored `power_main_mumbai` node, and its health
and criticality after three monitoring ticks with admissible decay factors. -/
theorem produced_scores_within_bounds_witness :
    (0 ≤ DT.simWitnessResult2.cascadeProbability ∧
      DT.simWitnessResult2.cascadeProbability ≤ 1) ∧
    (0 ≤ DT.vulnerabilityScore DT.powerMainNode ∧
      DT.vulnerabilityScore DT.powerMainNode ≤ 1) ∧
    (0 ≤ DT.tickedPowerMain.healthScore ∧ DT.tickedPowerMain.healthScore ≤ 1 ∧
      DT.tickedPowerMain.criticalityScore = 95/100) := by
  obtain ⟨hprob, hvuln, hticks, _hgen⟩ := produced_scores_within_bounds
  refine ⟨?_, ?_, ?_⟩
  · exact hprob DT.engine0 "hospital_main" DT.FMode.overload DT.drawsOne
      DT.simWitnessResult2 (by with_unfolding_all rfl)
  · have hh : DT.powerMainNode.healthScore = 8/10 := by with_unfolding_all rfl
    have hr : DT.powerMainNode.redundancyLevel = 2 := by with_unfolding_all rfl
    have hc : DT.powerMainNode.criticalityScore = 95/100 := by with_unfolding_all rfl
    exact hvuln DT.powerMainNode (by rw [hh]; norm_num) (by rw [hh]; norm_num)
      (by rw [hr]; norm_num) (by rw [hc]; norm_num) (by rw [hc]; norm_num)
  · have hl : alook "power_main_mumbai" DT.engine0.nodes = some DT.powerMainNode := by
      with_unfolding_all rfl
    have hh : DT.powerMainNode.healthScore = 8/10 := by with_unfolding_all rfl
    obtain ⟨n', hl', hb0, hb1, hcrit⟩ :=
      hticks DT.engine0 DT.constHealthFactor DT.constLoadFactor 3 "power_main_mumbai"
        (by intro i x; constructor <;> norm_num [DT.constHealthFactor])
        DT.powerMainNode hl (by rw [hh]; norm_num) (by rw [hh]; norm_num)
    have hpm : DT.tickedPowerMain = n' := by
      unfold DT.tickedPowerMain
      rw [hl']
      rfl
    have hc : DT.powerMainNode.criticalityScore = 95/100 := by with_unfolding_all rfl
    rw [hpm]
    exact ⟨hb0, hb1, by rw [hcrit, hc]⟩

/-- C8 counterexample. Two runs of `_simulate_cascade_propagation` with
identical graph state, identical initial node and identical failure mode can
produce different results: with draws below the failure probabilities the
cascade from `power_main_mumbai` reaches eight nodes, with draws above them it
stays at the initial node — the outcome depends on the `np.random.random()`
draws, which are not part of the graph snapshot or the input event. -/
theorem simulate_differs_across_draws :
    (DT.simulateCascadePropagation DT.engine0 "power_main_mumbai"
        DT.FMode.structural_damage DT.drawsZero).map (fun r => r.affectedNodes) ≠
    (DT.simulateCascadePropagation DT.engine0 "power_main_mumbai"
        DT.FMode.structural_damage DT.drawsOne).map (fun r => r.affectedNodes) := by
  have h1 : (DT.simulateCascadePropagation DT.engine0 "power_main_mumbai"
      DT.FMode.structural_damage DT.drawsZero).map (fun r => r.affectedNodes) =
      some ["power_main_mumbai", "telecom_main_mumbai", "water_main_mumbai",
        "hospital_main", "comm_control", "power_suburban_1", "telecom_south",
        "hospital_south"] := by
    with_unfolding_all rfl
  have h2 : (DT.simulateCascadePropagation DT.engine0 "power_main_mumbai"
      DT.FMode.structural_damage DT.drawsOne).map (fun r => r.affectedNodes) =
      some ["power_main_mumbai"] := by
    with_unfolding_all rfl
  rw [h1, h2]
  simp

/-- C8 (corrected). Amended claim: each propagation run is a pure function of
the graph snapshot, the input event, *and* the sequence of random draws — two
runs with identical graph state, initial node, failure mode, and identical
draw sequences produce identical results, and the run reads but never writes
the shared engine state. -/
theorem simulate_deterministic_given_draws (e : DT.Engine) (init : String)
    (fm : DT.FMode) (d₁ d₂ : ℕ → ℚ) (h : ∀ i, d₁ i = d₂ i) :
    DT.simulateCascadePropagation e init fm d₁ =
      DT.simulateCascadePropagation e init fm d₂ := by
  rw [funext h]

/-- C8 witness: the determinism theorem applied to a concrete engine, node,
failure mode and draw sequence. -/
theorem simulate_deterministic_given_draws_witness :
    DT.simulateCascadePropagation DT.engine0 "power_main_mumbai"
        DT.FMode.structural_damage DT.drawsOne =
      DT.simulateCascadePropagation DT.engine0 "power_main_mumbai"
        DT.FMode.structural_damage DT.drawsOne :=
  simulate_deterministic_given_draws DT.engine0 "power_main_mumbai"
    DT.FMode.structural_damage DT.drawsOne DT.drawsOne (fun _ => rfl)

/-- C7 (confirmed). Calling `predict_cascade` with a node id absent from the
graph and a valid failure mode surfaces an error result (the `KeyError` is
swallowed inside `_generate_cascade_prediction`, so the caller sees the
no-prediction error dict) and leaves the engine — in particular the prediction
history — exactly unchanged, provided the history holds no prediction for that
id (which it cannot, since predictions are only ever created for existing
nodes). -/
theorem predict_cascade_unknown_node_error (e : DT.Engine) (nid ms : String)
    (fm : DT.FMode) (draws : ℕ → ℚ)
    (hparse : DT.parseFailureMode ms = some fm)
    (hnode : alook nid e.nodes = none)
    (hhist : ∀ p ∈ e.cascadePredictions, p.initialFailureNode ≠ nid) :
    DT.predictCascade e nid ms draws =
      (DT.PCResult.err "No prediction found for this node", e) := by
  unfold DT.predictCascade
  rw [hparse]
  have hgen : DT.generateCascadePrediction e nid draws = e := by
    unfold DT.generateCascadePrediction
    rw [hnode]
  dsimp only
  rw [hgen]
  have hfind : e.cascadePredictions.reverse.find?
      (fun p => p.initialFailureNode == nid) = none := by
    rw [List.find?_eq_none]
    intro p hp
    simp only [beq_iff_eq]
    exact hhist p (List.mem_reverse.mp hp)
  rw [hfind]

/-- C7 witness: `predictCascade("nonexistent_node", "overload")` on the seeded
engine returns the error result and the unchanged engine. -/
theorem predict_cascade_unknown_node_error_witness :
    DT.predictCascade DT.engine0 "nonexistent_node" "overload" DT.drawsOne =
      (DT.PCResult.err "No prediction found for this node", DT.engine0) := by
  have hhist : DT.engine0.cascadePredictions = [] := by with_unfolding_all rfl
  refine predict_cascade_unknown_node_error DT.engine0 "nonexistent_node" "overload"
    DT.FMode.overload DT.drawsOne (by with_unfolding_all rfl)
    (by with_unfolding_all rfl) ?_
  rw [hhist]
  intro p hp
  cases hp

/-- C6 counterexample. `predict_cascade` on the seeded engine for the existing
node `hospital_main` with the valid requested mode `"power_outage"` returns a
prediction whose `failure_mode` is `structural_damage` (derived from the node's
healthy condition), not the requested mode. -/
theorem predict_cascade_requested_mode_ignored :
    DT.parseFailureMode "power_outage" = some DT.FMode.power_outage ∧
    (match (DT.predictCascade DT.engine0 "hospital_main" "power_outage" DT.drawsOne).1 with
     | DT.PCResult.pred p => p.failureMode
     | DT.PCResult.err _ => DT.FMode.power_outage) = DT.FMode.structural_damage := by
  constructor
  · with_unfolding_all rfl
  · with_unfolding_all rfl

/-- C6 (corrected). Amended claim: `predict_cascade` validates the requested
failure-mode string but never uses it — its result is identical for any two
valid mode strings, and every prediction `_generate_cascade_prediction` adds to
history carries the failure mode derived from the node's condition (overload if
load/capacity > 0.9, else equipment_failure if health < 0.6, else
structural_damage). -/
theorem predict_cascade_mode_derived_from_condition :
    (∀ (e : DT.Engine) (nid m₁ m₂ : String) (f₁ f₂ : DT.FMode) (draws : ℕ → ℚ),
       DT.parseFailureMode m₁ = some f₁ → DT.parseFailureMode m₂ = some f₂ →
       DT.predictCascade e nid m₁ draws = DT.predictCascade e nid m₂ draws) ∧
    (∀ (e : DT.Engine) (nid : String) (draws : ℕ → ℚ) (node : DT.DTNode)
       (p : DT.Pred),
       alook nid e.nodes = some node →
       p ∈ (DT.generateCascadePrediction e nid draws).cascadePredictions →
       p ∈ e.cascadePredictions ∨ p.failureMode = DT.derivedFailureMode node) := by
  constructor
  · intro e nid m₁ m₂ f₁ f₂ draws h1 h2
    unfold DT.predictCascade
    rw [h1, h2]
  · intro e nid draws node p hnode hp
    unfold DT.generateCascadePrediction at hp
    rw [hnode] at hp
    dsimp only at hp
    split at hp
    · exact Or.inl hp
    · split at hp
      · exact Or.inl hp
      · rcases DT.storePredictionAndGate_mem _ p _ hp with h | h
        · exact Or.inl h
        · subst h
          exact Or.inr rfl

/-- C6 witness: the mode-independence half applied at two concrete valid
requested modes on the seeded engine. -/
theorem predict_cascade_mode_derived_witness :
    DT.predictCascade DT.engine0 "hospital_main" "power_outage" DT.drawsOne =
      DT.predictCascade DT.engine0 "hospital_main" "overload" DT.drawsOne :=
  predict_cascade_mode_derived_from_condition.1 DT.engine0 "hospital_main"
    "power_outage" "overload" DT.FMode.power_outage DT.FMode.overload DT.drawsOne
    (by with_unfolding_all rfl) (by with_unfolding_all rfl)

namespace DT

theorem collect_fold_some (e : Engine) (affected : List String) :
    ∀ (l : List String) (acc : List String),
      (∀ nid ∈ l, (alook nid e.nodes).isSome = true) →
      ∃ res, List.foldlM (collectStep e affected) acc l = some res ∧
        ∃ ext, res = acc ++ ext := by
  intro l
  induction l with
  | nil =>
    intro acc _
    exact ⟨acc, rfl, [], by simp⟩
  | cons a rest ih =>
    intro acc hall
    obtain ⟨n, hn⟩ := Option.isSome_iff_exists.mp (hall a (List.mem_cons_self a rest))
    have hstep : ∃ add, collectStep e affected acc a = some (acc ++ add) := by
      unfold collectStep
      rw [hn]
      exact ⟨_, rfl⟩
    obtain ⟨add, hadd⟩ := hstep
    obtain ⟨res, hres, ext, hext⟩ :=
      ih (acc ++ add) (fun x hx => hall x (List.mem_cons_of_mem a hx))
    refine ⟨res, ?_, add ++ ext, ?_⟩
    · rw [List.foldlM_cons, hadd]
      simpa using hres
    · rw [hext, List.append_assoc]

theorem collectDepEdges_has_edge (e : Engine) (a b : String) (rest : List String)
    (na : DTNode) (hna : alook a e.nodes = some na) (hb : b ∈ na.dependents)
    (hedge : (alook (a ++ "_" ++ b) e.edges).isSome = true)
    (hall : ∀ nid ∈ (a :: b :: rest).take 3, (alook nid e.nodes).isSome = true) :
    ∃ res, collectDepEdges e (a :: b :: rest) = some res ∧ (a ++ "_" ++ b) ∈ res := by
  unfold collectDepEdges
  have htake : (a :: b :: rest).take 3 = a :: b :: rest.take 1 := by
    simp [List.take]
  rw [htake]
  have hstep : ∃ add, collectStep e (a :: b :: rest) [] a = some add ∧
      (a ++ "_" ++ b) ∈ add := by
    unfold collectStep
    rw [hna]
    refine ⟨_, rfl, ?_⟩
    simp only [List.nil_append]
    refine List.mem_filterMap.mpr ⟨b, hb, ?_⟩
    rw [if_pos ⟨List.mem_cons_of_mem a (List.mem_cons_self b rest), hedge⟩]
  obtain ⟨add, hadd, hmem⟩ := hstep
  obtain ⟨res, hres, ext, hext⟩ :=
    collect_fold_some e (a :: b :: rest) (b :: rest.take 1) add
      (fun x hx => hall x (by rw [htake]; exact List.mem_cons_of_mem a hx))
  refine ⟨res, ?_, ?_⟩
  · rw [List.foldlM_cons, hadd]
    simpa using hres
  · rw [hext]
    exact List.mem_append_left ext hmem

theorem genStrategies_grows (e : Engine) (p : Pred) (res : List String)
    (hres : collectDepEdges e p.affectedNodes = some res) (hne : res ≠ []) :
    ∃ e2, genStrategies e p = some e2 ∧
      e.preStabilizationStrategies.length < e2.preStabilizationStrategies.length := by
  unfold genStrategies
  rw [hres]
  dsimp only
  have hie : res.isEmpty = false := by
    cases res with
    | nil => exact absurd rfl hne
    | cons x xs => rfl
  rw [hie]
  refine ⟨_, rfl, ?_⟩
  simp only [Bool.false_eq_true, if_false, List.length_append, List.length_map,
    List.length_singleton]
  omega

end DT

/-- C5 (confirmed). Strategy generation is gated on cascade probability: a
prediction with `cascade_probability = 0.5` (below the 0.7 gate) leaves the
stored strategies untouched, and one with `cascade_probability = 0.85` strictly
grows them — provided the prediction has the shape every multi-node simulator
output has (its first affected node is stored and has a dependency edge to
another affected node, and the first affected nodes are stored), so the
dependency-strengthening strategy is generated. -/
theorem strategy_gating_thresholds (e : DT.Engine) (p : DT.Pred) :
    (p.cascadeProbability = 1/2 →
      (DT.storePredictionAndGate e p).preStabilizationStrategies =
        e.preStabilizationStrategies) ∧
    (p.cascadeProbability = 17/20 →
      ∀ a b rest, p.affectedNodes = a :: b :: rest →
      (∀ nid ∈ p.affectedNodes.take 3, (alook nid e.nodes).isSome = true) →
      ∀ na, alook a e.nodes = some na → b ∈ na.dependents →
      (alook (a ++ "_" ++ b) e.edges).isSome = true →
      e.preStabilizationStrategies.length <
        (DT.storePredictionAndGate e p).preStabilizationStrategies.length) := by
  constructor
  · intro hp
    unfold DT.storePredictionAndGate
    rw [hp]
    dsimp only
    rw [if_neg (by norm_num : ¬ ((7:ℚ)/10 < 1/2))]
  · intro hp a b rest haff hall na hna hb hedge
    unfold DT.storePredictionAndGate
    rw [hp]
    dsimp only
    rw [if_pos (by norm_num : (7:ℚ)/10 < 17/20)]
    set q := (if 100 < (e.cascadePredictions ++ [p]).length then
        (e.cascadePredictions ++ [p]).drop ((e.cascadePredictions ++ [p]).length - 100)
      else e.cascadePredictions ++ [p]) with hq
    have hna1 : alook a ({ e with cascadePredictions := q } : DT.Engine).nodes = some na := hna
    have hedge1 :
        (alook (a ++ "_" ++ b) ({ e with cascadePredictions := q } : DT.Engine).edges).isSome
          = true := hedge
    have hall1 : ∀ nid ∈ (a :: b :: rest).take 3,
        (alook nid ({ e with cascadePredictions := q } : DT.Engine).nodes).isSome = true := by
      intro nid hnid
      exact hall nid (by rw [haff]; exact hnid)
    obtain ⟨res, hres, hmem⟩ :=
      DT.collectDepEdges_has_edge { e with cascadePredictions := q } a b rest na
        hna1 hb hedge1 hall1
    have hne : res ≠ [] := by
      intro hnil
      rw [hnil] at hmem
      cases hmem
    obtain ⟨e2, hgen, hlt⟩ :=
      DT.genStrategies_grows { e with cascadePredictions := q } p res
        (by rw [haff]; exact hres) hne
    rw [hgen]
    exact hlt

/-- C5 witness: on the seeded engine, a 0.5-probability prediction stores no
strategy, and a simulator-shaped 0.85-probability prediction
(`power_main_mumbai` followed by its failed dependent `telecom_main_mumbai`)
strictly grows the strategy store. -/
theorem strategy_gating_thresholds_witness :
    (DT.storePredictionAndGate DT.engine0 DT.lowGateWitnessPred).preStabilizationStrategies =
      DT.engine0.preStabilizationStrategies ∧
    DT.engine0.preStabilizationStrategies.length <
      (DT.storePredictionAndGate DT.engine0 DT.gateWitnessPred).preStabilizationStrategies.length := by
  constructor
  · exact (strategy_gating_thresholds DT.engine0 DT.lowGateWitnessPred).1 rfl
  · have hdeps : DT.powerMainNode.dependents =
        ["telecom_main_mumbai", "water_main_mumbai", "hospital_main", "comm_control"] := by
      with_unfolding_all rfl
    refine (strategy_gating_thresholds DT.engine0 DT.gateWitnessPred).2 rfl
      "power_main_mumbai" "telecom_main_mumbai" [] rfl ?_ DT.powerMainNode
      (by with_unfolding_all rfl) (by rw [hdeps]; simp) (by with_unfolding_all rfl)
    intro nid hnid
    have : nid = "power_main_mumbai" ∨ nid = "telecom_main_mumbai" := by
      simpa [DT.gateWitnessPred, List.take] using hnid
    rcases this with h | h <;> rw [h] <;> with_unfolding_all rfl

/-- C3 counterexample. An internal error in `predict_cascade_failure` IS
converted into a default prediction that looks successful: for the
representative Mumbai earthquake trigger the caller receives the except-branch
result with the fixed default scores (risk 50, confidence 30, cascading
probability 25, severity "medium"), shaped like a successful prediction (the
only marker is its extra `'error'` entry). -/
theorem predict_cascade_failure_default_on_error :
    PCF.predictCascadeFailure PCF.mumbaiEarthquake = PCF.defaultErrorPrediction ∧
    PCF.defaultErrorPrediction.riskScore = 50 ∧
    PCF.defaultErrorPrediction.predictionConfidence = 30 ∧
    PCF.defaultErrorPrediction.cascadingFailureProbability = 25 ∧
    PCF.defaultErrorPrediction.severityLevel = "medium" :=
  ⟨rfl, rfl, rfl, rfl, rfl⟩

/-- C3 (corrected). Amended claim: in `predict_cascade_failure` every internal
error is converted into the default-scored result dict carrying an `'error'`
entry — in fact every call takes this path, because the try-body always raises
(first at `len(...)` of the integer `dependencies` entry, then at the missing
`get_severity_level` method and the `datetime.datetime` attribute). The second
half of the original claim stands: failed predictions are not appended to the
cascade-prediction history, whose only append site,
`_generate_cascade_prediction`, leaves the engine untouched when its
computation raises. -/
theorem predict_cascade_failure_always_defaults :
    (∀ ev : PCF.TriggerEvent,
       PCF.predictCascadeFailure ev = PCF.defaultErrorPrediction ∧
       (PCF.predictCascadeFailure ev).hasError = true) ∧
    (∀ (e : DT.Engine) (nid : String) (draws : ℕ → ℚ),
       alook nid e.nodes = none → DT.generateCascadePrediction e nid draws = e) := by
  constructor
  · intro ev
    exact ⟨rfl, rfl⟩
  · intro e nid draws h
    unfold DT.generateCascadePrediction
    rw [h]

/-- C3 witness: the default result at a concrete trigger event, and the
unchanged engine for a concrete unknown node. -/
theorem predict_cascade_failure_always_defaults_witness :
    PCF.predictCascadeFailure PCF.mumbaiEarthquake = PCF.defaultErrorPrediction ∧
    DT.generateCascadePrediction DT.engine0 "no_such_node" DT.drawsZero = DT.engine0 := by
  refine ⟨(predict_cascade_failure_always_defaults.1 PCF.mumbaiEarthquake).1, ?_⟩
  exact predict_cascade_failure_always_defaults.2 DT.engine0 "no_such_node" DT.drawsZero
    (by with_unfolding_all rfl)
